import Mathlib

/-!
Verification of the vowpal_wabbit parameter store and epsilon-decay
reduction core, shallowly embedded from
`src/vowpalwabbit/core/include/vw/core/reductions/epsilon_decay.h` and
`src/test/unit_test/weights_test.cc`.

The `epsilon_decay_data` constructor is present in the source header and
is embedded verbatim.  The dense/sparse parameter-store backends, the
privacy-activation mechanism, the `scored_config` statistics and the
`model_utils` serialization bodies are declared but not implemented in
the available sources, so those parts are modelled from the
specification (each such definition carries a doc comment saying so).
Weights (C++ `float`/`double`) are modelled as rationals.
-/

namespace VW

/-- Stride of a parameter store with the given `stride_shift`:
`stride() = 2 ^ stride_shift`, as specified for both backends. -/
def strideOf (stride_shift : ℕ) : ℕ := 2 ^ stride_shift

/-- Modelled from the spec: the dense parameter-store backend
(`dense_parameters`, whose implementation is not under `src/`).  It owns a
contiguous weight array covering the addressable range, here represented
as a total map from raw offsets to weight values. -/
structure dense_parameters where
  _length : ℕ
  _stride_shift : ℕ
  _weights : ℕ → ℚ

/-- Modelled from the spec: `dense_parameters(length, stride_shift)`
eagerly reserves all slots, zero-initialised. -/
def dense_parameters.construct (length stride_shift : ℕ) : dense_parameters :=
  ⟨length, stride_shift, fun _ => 0⟩

/-- `stride() = 2 ^ stride_shift` (dense backend). -/
def dense_parameters.stride (p : dense_parameters) : ℕ := strideOf p._stride_shift

/-- Modelled from the spec: `dense_parameters::set_default(fn)` invokes the
registered default initializer once per logical index (eagerly, since all
dense entries are materialised).  The C++ callback
`(weight* block, uint64_t index) -> void` receives the strided offset
`i * stride` of the block it fills, so it is modelled as a function from
that offset to the block contents it writes; offsets the callback leaves
untouched keep their previous value. -/
def dense_parameters.set_default (p : dense_parameters) (fn : ℕ → List ℚ) :
    dense_parameters :=
  { p with _weights := fun k =>
      let st := strideOf p._stride_shift
      if k / st < p._length then (fn (k / st * st)).getD (k % st) (p._weights k)
      else p._weights k }

/-- `strided_index(i)`: first weight value of the block at logical index
`i`, i.e. the value at raw offset `i * stride` (dense backend). -/
def dense_parameters.strided_index (p : dense_parameters) (i : ℕ) : ℚ :=
  p._weights (i * strideOf p._stride_shift)

/-- Modelled from the spec: the sparse parameter-store backend
(`sparse_parameters`, whose implementation is not under `src/`).  Entries
are materialised lazily; `_map` holds the already-materialised blocks
keyed by logical index. -/
structure sparse_parameters where
  _length : ℕ
  _stride_shift : ℕ
  _default_fn : ℕ → List ℚ
  _map : List (ℕ × List ℚ)

/-- Modelled from the spec: `sparse_parameters(length, stride_shift)`
reserves no entries up front and has a trivial default initializer. -/
def sparse_parameters.construct (length stride_shift : ℕ) : sparse_parameters :=
  ⟨length, stride_shift, fun _ => [], []⟩

/-- `stride() = 2 ^ stride_shift` (sparse backend). -/
def sparse_parameters.stride (p : sparse_parameters) : ℕ := strideOf p._stride_shift

/-- Modelled from the spec: `sparse_parameters::set_default(fn)` replaces
the default initializer used for subsequently-materialised entries;
already-materialised entries are not retroactively reinitialised. -/
def sparse_parameters.set_default (p : sparse_parameters) (fn : ℕ → List ℚ) :
    sparse_parameters :=
  { p with _default_fn := fn }

/-- The weight block a sparse lookup of logical index `i` observes: the
materialised entry if present, otherwise the block the registered default
initializer writes when handed the strided offset `i * stride` on the
first-touch miss. -/
def sparse_parameters.block_at (p : sparse_parameters) (i : ℕ) : List ℚ :=
  match p._map.find? (fun e => e.1 == i) with
  | some e => e.2
  | none => p._default_fn (i * strideOf p._stride_shift)

/-- `strided_index(i)`: first weight value of the block at logical index
`i` (sparse backend), materialising via the default initializer. -/
def sparse_parameters.strided_index (p : sparse_parameters) (i : ℕ) : ℚ :=
  (p.block_at i).getD 0 0

/-- The default initializer of the C1 test
(`weights_test.cc:20`): `weights[0] = 1.f * index`, i.e. the block's
first weight becomes the index the store passes in. -/
def initC1 : ℕ → List ℚ := fun idx => [(idx : ℚ)]

/-- Claim C1: for every `i < LENGTH` and both backends, after registering
the default initializer `f(weights, idx): weights[0] = idx`,
`strided_index(i)` returns `i * stride()` where `stride() = 2 ^
stride_shift`; the result is identical for both backends and depends only
on `i` (and the fixed stride). -/
theorem C1_strided_index_backend_transparent
    (LENGTH stride_shift i : ℕ) (hi : i < LENGTH) :
    ((dense_parameters.construct LENGTH stride_shift).set_default
        initC1).strided_index i = ((i * strideOf stride_shift : ℕ) : ℚ)
    ∧ ((sparse_parameters.construct LENGTH stride_shift).set_default
        initC1).strided_index i = ((i * strideOf stride_shift : ℕ) : ℚ) := by
  have hs : 0 < strideOf stride_shift := Nat.pos_pow_of_pos _ (by decide)
  constructor
  · simp only [dense_parameters.strided_index, dense_parameters.set_default,
      dense_parameters.construct]
    rw [Nat.mul_div_cancel _ hs, Nat.mul_mod_left]
    simp [hi, initC1]
  · simp [sparse_parameters.strided_index, sparse_parameters.set_default,
      sparse_parameters.construct, sparse_parameters.block_at, initC1]

/-- Witness for C1 at the test's parameters `LENGTH = 16`,
`stride_shift = 2` and `i = 5`: `strided_index(5) = 5 * 4 = 20` on both
backends. -/
theorem C1_witness :
    ((dense_parameters.construct 16 2).set_default initC1).strided_index 5
        = ((5 * strideOf 2 : ℕ) : ℚ)
    ∧ ((sparse_parameters.construct 16 2).set_default initC1).strided_index 5
        = ((5 * strideOf 2 : ℕ) : ℚ) :=
  C1_strided_index_backend_transparent 16 2 5 (by decide)

/-! ### Privacy-activation tracking (modelled from the spec) -/

/-- Modelled from the spec: the per-feature activation-tracking state of a
parameter store in privacy mode (`PRIVACY_ACTIVATION`, whose
implementation is not under `src/`).  `_threshold` is the global
activation threshold, unset until `privacy_activation_threshold` is
called; `_tags` records every `(feature_index, tag)` event. -/
structure privacy_state where
  _threshold : Option ℕ
  _tags : List (ℕ × ℕ)

/-- A freshly constructed store: no threshold configured, no tags. -/
def privacy_state.init : privacy_state := ⟨none, []⟩

/-- `privacy_activation_threshold(n)`: configures the global threshold. -/
def privacy_state.privacy_activation_threshold (s : privacy_state) (n : ℕ) :
    privacy_state :=
  { s with _threshold := some n }

/-- `set_tag(feature_index, tag)`: records a tag event for a feature. -/
def privacy_state.set_tag (s : privacy_state) (feature_index tag : ℕ) :
    privacy_state :=
  { s with _tags := s._tags ++ [(feature_index, tag)] }

/-- Number of distinct tags recorded for a feature: the tag set is a true
set, so duplicate events are deduplicated before counting. -/
def privacy_state.distinct_tag_count (s : privacy_state) (feature_index : ℕ) :
    ℕ :=
  ((s._tags.filter (fun e => e.1 == feature_index)).map (fun e => e.2)).dedup.length

/-- `is_activated(feature_index)`: true iff a threshold is configured and
the distinct recorded tag count for the feature reaches it. -/
def privacy_state.is_activated (s : privacy_state) (feature_index : ℕ) : Bool :=
  match s._threshold with
  | none => false
  | some th => th ≤ s.distinct_tag_count feature_index

/-- Records a whole list of tags for one feature, in order. -/
def privacy_state.set_tags (s : privacy_state) (feature_index : ℕ)
    (tags : List ℕ) : privacy_state :=
  tags.foldl (fun s t => s.set_tag feature_index t) s

theorem privacy_state.set_tags_threshold (s : privacy_state)
    (f : ℕ) (l : List ℕ) : (s.set_tags f l)._threshold = s._threshold := by
  induction l generalizing s with
  | nil => rfl
  | cons t l ih => simpa [privacy_state.set_tags, privacy_state.set_tag] using ih _

theorem privacy_state.set_tags_tags (s : privacy_state) (f : ℕ) (l : List ℕ) :
    (s.set_tags f l)._tags = s._tags ++ l.map (fun t => (f, t)) := by
  induction l generalizing s with
  | nil => simp [privacy_state.set_tags]
  | cons t l ih =>
      have hstep : s.set_tags f (t :: l) = (s.set_tag f t).set_tags f l := rfl
      rw [hstep, ih, privacy_state.set_tag]
      simp

theorem dedup_replicate_succ (n a : ℕ) : (List.replicate (n + 1) a).dedup = [a] := by
  induction n with
  | zero => simp
  | succ n ih =>
      rw [List.replicate_succ, List.dedup_cons_of_mem, ih]
      simp [List.mem_replicate]

theorem privacy_state.distinct_after_set_tags (f th : ℕ) (l : List ℕ) :
    ((privacy_state.init.privacy_activation_threshold th).set_tags f
        l).distinct_tag_count f = l.dedup.length := by
  simp [privacy_state.distinct_tag_count, privacy_state.set_tags_tags,
    privacy_state.privacy_activation_threshold, privacy_state.init,
    List.filter_map, Function.comp_def]

/-- Claim C3: with threshold `th ≥ 2` configured, recording `th` distinct
tags for a feature activates it, recording only `th - 1` distinct tags
does not, and recording one tag value `th` times counts as one distinct
tag, leaving the feature inactive. -/
theorem C3_distinct_tag_threshold_activation (th f : ℕ) (h2 : 2 ≤ th) :
    ((privacy_state.init.privacy_activation_threshold th).set_tags f
        (List.range th)).is_activated f = true
    ∧ ((privacy_state.init.privacy_activation_threshold th).set_tags f
        (List.range (th - 1))).is_activated f = false
    ∧ ((privacy_state.init.privacy_activation_threshold th).set_tags f
        (List.replicate th 0)).is_activated f = false := by
  have hth : ∀ l : List ℕ,
      ((privacy_state.init.privacy_activation_threshold th).set_tags f
        l)._threshold = some th := by
    intro l
    rw [privacy_state.set_tags_threshold]
    rfl
  refine ⟨?_, ?_, ?_⟩
  · simp [privacy_state.is_activated, hth, privacy_state.distinct_after_set_tags,
      List.dedup_eq_self.mpr (List.nodup_range th)]
  · simp only [privacy_state.is_activated, hth,
      privacy_state.distinct_after_set_tags,
      List.dedup_eq_self.mpr (List.nodup_range (th - 1)), List.length_range]
    simp only [decide_eq_false_iff_not]
    omega
  · have hrep : (List.replicate th (0 : ℕ)).dedup = [0] := by
      have hsplit : th = (th - 1) + 1 := by omega
      rw [hsplit, dedup_replicate_succ]
    simp only [privacy_state.is_activated, hth,
      privacy_state.distinct_after_set_tags, hrep, List.length_singleton]
    simp only [decide_eq_false_iff_not]
    omega

/-- Witness for C3 at the test's threshold 10 and feature 0. -/
theorem C3_witness :
    ((privacy_state.init.privacy_activation_threshold 10).set_tags 0
        (List.range 10)).is_activated 0 = true
    ∧ ((privacy_state.init.privacy_activation_threshold 10).set_tags 0
        (List.range 9)).is_activated 0 = false
    ∧ ((privacy_state.init.privacy_activation_threshold 10).set_tags 0
        (List.replicate 10 0)).is_activated 0 = false :=
  C3_distinct_tag_threshold_activation 10 0 (by decide)

/-- Counterexample to C3 as stated for every configured threshold: with
threshold 1, recording a single tag value once (one distinct tag, i.e.
`threshold` duplicate recordings of one value) already activates the
feature, where the claim asserts it stays inactive. -/
theorem C3_counterexample :
    ((privacy_state.init.privacy_activation_threshold 1).set_tags 0
        (List.replicate 1 0)).is_activated 0 = true := by
  decide

/-- Claim C8: with no threshold configured, `is_activated` is false for
every feature no matter which tag events were recorded. -/
theorem C8_no_threshold_never_activated (f : ℕ) (ops : List (ℕ × ℕ)) :
    ((ops.foldl (fun s p => s.set_tag p.1 p.2)
        privacy_state.init).is_activated f) = false := by
  have hnone : ∀ s : privacy_state,
      (ops.foldl (fun s p => s.set_tag p.1 p.2) s)._threshold = s._threshold := by
    induction ops with
    | nil => intro s; rfl
    | cons p l ih => intro s; simpa [privacy_state.set_tag] using ih _
  simp [privacy_state.is_activated, hnone, privacy_state.init]

/-! ### Scored configurations (`epsilon_decay_score`) -/

/-- The `epsilon_decay_score` record of `epsilon_decay.h:21-36` (fields
`_lower_bound`, `_model_idx` and the inherited `scored_config` state).
The `scored_config` statistic itself is not under `src/`; modelled from
the spec as a `tau`-decayed inverse-propensity running mean
(`ips_numerator / ips_denominator`) with confidence radius
`alpha / (ips_denominator + 1)`, plus the update counter. -/
structure epsilon_decay_score where
  alpha : ℚ
  tau : ℚ
  update_count : ℕ
  ips_numerator : ℚ
  ips_denominator : ℚ
  _lower_bound : ℚ
  _model_idx : ℕ
deriving DecidableEq

/-- `epsilon_decay_score(alpha, tau, model_idx)`: fixed identity, zero
accumulated statistic, `_lower_bound = 0.f` (`epsilon_decay.h:24,34`). -/
def epsilon_decay_score.construct (alpha tau : ℚ) (model_idx : ℕ) :
    epsilon_decay_score :=
  ⟨alpha, tau, 0, 0, 0, 0, model_idx⟩

/-- Modelled from the spec: the decayed IPS running mean, guarded so the
zero-sample state yields the neutral prior mean 0 instead of dividing by
zero. -/
def epsilon_decay_score.ips_mean (s : epsilon_decay_score) : ℚ :=
  if s.ips_denominator = 0 then 0 else s.ips_numerator / s.ips_denominator

/-- Modelled from the spec: the confidence radius, maximal (`alpha`) at
zero samples and shrinking as evidence accumulates. -/
def epsilon_decay_score.radius (s : epsilon_decay_score) : ℚ :=
  s.alpha / (s.ips_denominator + 1)

/-- Modelled from the spec: `current_ips()`, the upper confidence bound
of the decayed IPS estimate. -/
def epsilon_decay_score.current_ips (s : epsilon_decay_score) : ℚ :=
  s.ips_mean + s.radius

/-- `get_upper_bound() { return this->current_ips(); }`
(`epsilon_decay.h:29`). -/
def epsilon_decay_score.get_upper_bound (s : epsilon_decay_score) : ℚ :=
  s.current_ips

/-- `get_lower_bound() { return _lower_bound; }` (`epsilon_decay.h:30`). -/
def epsilon_decay_score.get_lower_bound (s : epsilon_decay_score) : ℚ :=
  s._lower_bound

/-- `get_model_idx() { return _model_idx; }` (`epsilon_decay.h:31`). -/
def epsilon_decay_score.get_model_idx (s : epsilon_decay_score) : ℕ :=
  s._model_idx

/-- Modelled from the spec: `update_bounds(w, r)` folds one observed
`(importance_weight, reward)` pair into the `tau`-decayed statistic,
bumps the update counter, and refreshes the tracked lower bound as the
symmetric lower confidence bound of the new state. -/
def epsilon_decay_score.update_bounds (s : epsilon_decay_score) (w r : ℚ) :
    epsilon_decay_score :=
  let t : epsilon_decay_score :=
    { s with ips_numerator := s.tau * s.ips_numerator + w * r,
             ips_denominator := s.tau * s.ips_denominator + 1,
             update_count := s.update_count + 1 }
  { t with _lower_bound := t.ips_mean - t.radius }

/-- Modelled from the spec: `decayed_epsilon(update_count)` — the exact
decay law is left open by the spec (harmonic vs. geometric); we take the
standard harmonic law `1 / (update_count + 1)`, which is positive and
non-increasing as required. -/
def epsilon_decay_score.decayed_epsilon (s : epsilon_decay_score)
    (update_count : ℕ) : ℚ :=
  1 / ((update_count : ℚ) + 1)

/-- Folds a whole list of `(weight, reward)` observations into a score. -/
def epsilon_decay_score.apply_updates (s : epsilon_decay_score)
    (l : List (ℚ × ℚ)) : epsilon_decay_score :=
  l.foldl (fun s p => s.update_bounds p.1 p.2) s

/-- The score obtained from a fresh configuration by `k` successive
`update_bounds` calls with one identical `(w, r)` pair. -/
def repeat_updates (alpha tau : ℚ) (idx : ℕ) (w r : ℚ) (k : ℕ) :
    epsilon_decay_score :=
  (epsilon_decay_score.construct alpha tau idx).apply_updates
    (List.replicate k (w, r))

/-- Width of the confidence interval `[get_lower_bound, get_upper_bound]`. -/
def interval_width (s : epsilon_decay_score) : ℚ :=
  s.get_upper_bound - s.get_lower_bound

/-- Division that refuses a zero divisor, used to show the bound
computations never divide by zero. -/
def divOpt (a b : ℚ) : Option ℚ := if b = 0 then none else some (a / b)

/-- The IPS mean computed with checked division: the zero-sample branch is
the explicit guard of the source contract. -/
def epsilon_decay_score.ips_mean_checked (s : epsilon_decay_score) :
    Option ℚ :=
  if s.ips_denominator = 0 then some 0
  else divOpt s.ips_numerator s.ips_denominator

/-- The confidence radius computed with checked division. -/
def epsilon_decay_score.radius_checked (s : epsilon_decay_score) : Option ℚ :=
  divOpt s.alpha (s.ips_denominator + 1)

/-- `decayed_epsilon` computed with checked division. -/
def epsilon_decay_score.decayed_epsilon_checked (s : epsilon_decay_score)
    (update_count : ℕ) : Option ℚ :=
  divOpt 1 ((update_count : ℚ) + 1)

theorem epsilon_decay_score.update_bounds_alpha (s : epsilon_decay_score)
    (w r : ℚ) : (s.update_bounds w r).alpha = s.alpha := rfl

theorem epsilon_decay_score.update_bounds_tau (s : epsilon_decay_score)
    (w r : ℚ) : (s.update_bounds w r).tau = s.tau := rfl

theorem epsilon_decay_score.update_bounds_denom (s : epsilon_decay_score)
    (w r : ℚ) :
    (s.update_bounds w r).ips_denominator = s.tau * s.ips_denominator + 1 :=
  rfl

theorem epsilon_decay_score.apply_updates_tau (s : epsilon_decay_score)
    (l : List (ℚ × ℚ)) : (s.apply_updates l).tau = s.tau := by
  induction l generalizing s with
  | nil => rfl
  | cons p l ih =>
      have hstep : s.apply_updates (p :: l)
          = (s.update_bounds p.1 p.2).apply_updates l := rfl
      rw [hstep, ih, epsilon_decay_score.update_bounds_tau]

theorem epsilon_decay_score.apply_updates_alpha (s : epsilon_decay_score)
    (l : List (ℚ × ℚ)) : (s.apply_updates l).alpha = s.alpha := by
  induction l generalizing s with
  | nil => rfl
  | cons p l ih =>
      have hstep : s.apply_updates (p :: l)
          = (s.update_bounds p.1 p.2).apply_updates l := rfl
      rw [hstep, ih, epsilon_decay_score.update_bounds_alpha]

theorem epsilon_decay_score.apply_updates_denom_nonneg
    (s : epsilon_decay_score) (l : List (ℚ × ℚ)) (ht : 0 ≤ s.tau)
    (hd : 0 ≤ s.ips_denominator) :
    0 ≤ (s.apply_updates l).ips_denominator := by
  induction l generalizing s with
  | nil => exact hd
  | cons p l ih =>
      have hstep : s.apply_updates (p :: l)
          = (s.update_bounds p.1 p.2).apply_updates l := rfl
      rw [hstep]
      refine ih _ ?_ ?_
      · rw [epsilon_decay_score.update_bounds_tau]; exact ht
      · rw [epsilon_decay_score.update_bounds_denom]
        have : 0 ≤ s.tau * s.ips_denominator := mul_nonneg ht hd
        linarith

/-- Claim C5: no bound computation divides by zero — the decayed mean,
the confidence radius and `decayed_epsilon` all succeed under checked
division in every reachable state — and a configuration with update
counter zero (a fresh one) yields the neutral maximal-uncertainty bound:
upper bound `alpha`, lower bound `0`. -/
theorem C5_zero_count_neutral_bounds (alpha tau : ℚ) (idx : ℕ)
    (l : List (ℚ × ℚ)) (n : ℕ) (ht : 0 ≤ tau) :
    (((epsilon_decay_score.construct alpha tau idx).apply_updates
        l).ips_mean_checked).isSome = true
    ∧ (((epsilon_decay_score.construct alpha tau idx).apply_updates
        l).radius_checked).isSome = true
    ∧ (((epsilon_decay_score.construct alpha tau idx).apply_updates
        l).decayed_epsilon_checked n).isSome = true
    ∧ (epsilon_decay_score.construct alpha tau idx).get_upper_bound = alpha
    ∧ (epsilon_decay_score.construct alpha tau idx).get_lower_bound = 0 := by
  have hd : 0 ≤ ((epsilon_decay_score.construct alpha tau idx).apply_updates
      l).ips_denominator :=
    epsilon_decay_score.apply_updates_denom_nonneg _ _ ht (le_refl 0)
  refine ⟨?_, ?_, ?_, ?_, ?_⟩
  · rw [epsilon_decay_score.ips_mean_checked]
    by_cases h : ((epsilon_decay_score.construct alpha tau idx).apply_updates
        l).ips_denominator = 0
    · simp [h]
    · simp [h, divOpt]
  · rw [epsilon_decay_score.radius_checked, divOpt]
    have : ((epsilon_decay_score.construct alpha tau idx).apply_updates
        l).ips_denominator + 1 ≠ 0 := by linarith
    simp [this]
  · rw [epsilon_decay_score.decayed_epsilon_checked, divOpt]
    have : ((n : ℚ) + 1) ≠ 0 := by positivity
    simp [this]
  · simp [epsilon_decay_score.construct, epsilon_decay_score.get_upper_bound,
      epsilon_decay_score.current_ips, epsilon_decay_score.ips_mean,
      epsilon_decay_score.radius]
  · rfl

/-- Witness for C5 at `alpha = 1`, `tau = 1/2`, one recorded update and
`n = 0`. -/
theorem C5_witness :
    (((epsilon_decay_score.construct 1 (1/2) 0).apply_updates
        [(1, 1)]).ips_mean_checked).isSome = true
    ∧ (((epsilon_decay_score.construct 1 (1/2) 0).apply_updates
        [(1, 1)]).radius_checked).isSome = true
    ∧ (((epsilon_decay_score.construct 1 (1/2) 0).apply_updates
        [(1, 1)]).decayed_epsilon_checked 0).isSome = true
    ∧ (epsilon_decay_score.construct 1 (1/2) 0).get_upper_bound = 1
    ∧ (epsilon_decay_score.construct 1 (1/2) 0).get_lower_bound = 0 :=
  C5_zero_count_neutral_bounds 1 (1/2) 0 [(1, 1)] 0 (by norm_num)

/-- Claim C6: `decayed_epsilon` is monotonically non-increasing in the
update count and bounded below by 0. -/
theorem C6_decayed_epsilon_monotone (s : epsilon_decay_score) (m n : ℕ)
    (h : m ≤ n) :
    s.decayed_epsilon n ≤ s.decayed_epsilon m ∧ 0 ≤ s.decayed_epsilon n := by
  constructor
  · rw [epsilon_decay_score.decayed_epsilon, epsilon_decay_score.decayed_epsilon]
    have hm : (0 : ℚ) < (m : ℚ) + 1 := by positivity
    have hmn : ((m : ℚ) + 1) ≤ ((n : ℚ) + 1) := by
      have : (m : ℚ) ≤ (n : ℚ) := by exact_mod_cast h
      linarith
    exact one_div_le_one_div_of_le hm hmn
  · rw [epsilon_decay_score.decayed_epsilon]
    positivity

/-- Witness for C6 at a fresh configuration and counts `1 ≤ 2`. -/
theorem C6_witness :
    (epsilon_decay_score.construct 1 1 0).decayed_epsilon 2
        ≤ (epsilon_decay_score.construct 1 1 0).decayed_epsilon 1
    ∧ 0 ≤ (epsilon_decay_score.construct 1 1 0).decayed_epsilon 2 :=
  C6_decayed_epsilon_monotone (epsilon_decay_score.construct 1 1 0) 1 2
    (by decide)

theorem repeat_updates_succ (alpha tau : ℚ) (idx : ℕ) (w r : ℚ) (k : ℕ) :
    repeat_updates alpha tau idx w r (k + 1)
      = (repeat_updates alpha tau idx w r k).update_bounds w r := by
  rw [repeat_updates, repeat_updates, List.replicate_succ']
  rw [epsilon_decay_score.apply_updates, epsilon_decay_score.apply_updates,
    List.foldl_append]
  rfl

theorem repeat_updates_tau (alpha tau : ℚ) (idx : ℕ) (w r : ℚ) (k : ℕ) :
    (repeat_updates alpha tau idx w r k).tau = tau :=
  epsilon_decay_score.apply_updates_tau _ _

theorem repeat_updates_alpha (alpha tau : ℚ) (idx : ℕ) (w r : ℚ) (k : ℕ) :
    (repeat_updates alpha tau idx w r k).alpha = alpha :=
  epsilon_decay_score.apply_updates_alpha _ _

theorem repeat_updates_denom_succ (alpha tau : ℚ) (idx : ℕ) (w r : ℚ)
    (k : ℕ) :
    (repeat_updates alpha tau idx w r (k + 1)).ips_denominator
      = tau * (repeat_updates alpha tau idx w r k).ips_denominator + 1 := by
  rw [repeat_updates_succ, epsilon_decay_score.update_bounds_denom,
    repeat_updates_tau]

theorem repeat_updates_denom_nonneg (alpha tau : ℚ) (idx : ℕ) (w r : ℚ)
    (k : ℕ) (ht : 0 ≤ tau) :
    0 ≤ (repeat_updates alpha tau idx w r k).ips_denominator :=
  epsilon_decay_score.apply_updates_denom_nonneg _ _ ht (le_refl 0)

theorem repeat_updates_denom_mono (alpha tau : ℚ) (idx : ℕ) (w r : ℚ)
    (k : ℕ) (ht : 0 ≤ tau) :
    (repeat_updates alpha tau idx w r k).ips_denominator
      ≤ (repeat_updates alpha tau idx w r (k + 1)).ips_denominator := by
  induction k with
  | zero =>
      rw [repeat_updates_denom_succ]
      have h0 : (repeat_updates alpha tau idx w r 0).ips_denominator = 0 := rfl
      rw [h0]
      linarith
  | succ k ih =>
      rw [repeat_updates_denom_succ, repeat_updates_denom_succ]
      have := mul_le_mul_of_nonneg_left ih ht
      linarith

theorem interval_width_update (s : epsilon_decay_score) (w r : ℚ) :
    interval_width (s.update_bounds w r)
      = 2 * (s.alpha / (s.tau * s.ips_denominator + 1 + 1)) := by
  rw [interval_width, epsilon_decay_score.update_bounds]
  rw [epsilon_decay_score.get_upper_bound, epsilon_decay_score.get_lower_bound]
  rw [epsilon_decay_score.current_ips]
  rw [epsilon_decay_score.ips_mean, epsilon_decay_score.ips_mean,
    epsilon_decay_score.radius, epsilon_decay_score.radius]
  ring

theorem interval_width_repeat_succ (alpha tau : ℚ) (idx : ℕ) (w r : ℚ)
    (k : ℕ) :
    interval_width (repeat_updates alpha tau idx w r (k + 1))
      = 2 * (alpha
          / (tau * (repeat_updates alpha tau idx w r k).ips_denominator
              + 1 + 1)) := by
  rw [repeat_updates_succ, interval_width_update, repeat_updates_tau,
    repeat_updates_alpha]

/-- Claim C7: for every fixed `(importance_weight, reward)` pair (and
non-negative hyperparameters `alpha`, `tau`), the bound-interval width
`get_upper_bound() - get_lower_bound()` observed after successive
identical `update_bounds` calls is non-increasing over time. -/
theorem C7_interval_width_non_increasing (alpha tau w r : ℚ) (idx k : ℕ)
    (ha : 0 ≤ alpha) (ht : 0 ≤ tau) :
    interval_width (repeat_updates alpha tau idx w r (k + 1))
      ≤ interval_width (repeat_updates alpha tau idx w r k) := by
  cases k with
  | zero =>
      rw [interval_width_repeat_succ]
      have h0d : (repeat_updates alpha tau idx w r 0).ips_denominator = 0 := rfl
      have hw0 : interval_width (repeat_updates alpha tau idx w r 0) = alpha := by
        rw [interval_width, epsilon_decay_score.get_upper_bound,
          epsilon_decay_score.get_lower_bound, epsilon_decay_score.current_ips,
          epsilon_decay_score.ips_mean, epsilon_decay_score.radius]
        have h0a : (repeat_updates alpha tau idx w r 0).alpha = alpha := rfl
        have h0l : (repeat_updates alpha tau idx w r 0)._lower_bound = 0 := rfl
        rw [h0d, h0a, h0l]
        norm_num
      rw [hw0, h0d]
      have hred : 2 * (alpha / (tau * 0 + 1 + 1)) = alpha := by ring
      rw [hred]
  | succ k =>
      rw [interval_width_repeat_succ, interval_width_repeat_succ]
      have hmono := repeat_updates_denom_mono alpha tau idx w r k ht
      have hnn := repeat_updates_denom_nonneg alpha tau idx w r k ht
      have h1 : 0 < tau * (repeat_updates alpha tau idx w r k).ips_denominator
          + 1 + 1 := by
        have : 0 ≤ tau * (repeat_updates alpha tau idx w r k).ips_denominator :=
          mul_nonneg ht hnn
        linarith
      have h2 : tau * (repeat_updates alpha tau idx w r k).ips_denominator
            + 1 + 1
          ≤ tau * (repeat_updates alpha tau idx w r (k + 1)).ips_denominator
            + 1 + 1 := by
        have := mul_le_mul_of_nonneg_left hmono ht
        linarith
      have hdiv := div_le_div_of_nonneg_left ha h1 h2
      linarith

/-- Witness for C7 at `alpha = 1`, `tau = 1/2`, pair `(1, 1)`, one versus
two updates. -/
theorem C7_witness :
    interval_width (repeat_updates 1 (1/2) 0 1 1 2)
      ≤ interval_width (repeat_updates 1 (1/2) 0 1 1 1) :=
  C7_interval_width_non_increasing 1 (1/2) 1 1 0 1 (by norm_num) (by norm_num)

/-! ### The epsilon-decay selector data (`epsilon_decay_data`) -/

/-- The `parameters` store referenced (not owned) by
`epsilon_decay_data::_weights`: one of the two backends behind a single
interface. -/
inductive parameters where
  | dense (p : dense_parameters)
  | sparse (p : sparse_parameters)

/-- One iteration of the inner loop of the `epsilon_decay_data`
constructor (`epsilon_decay.h:51-56`): row of `len` scores whose
`model_idx` continues from the running counter `model_idx`. -/
def build_score_row (alpha tau : ℚ) (model_idx len : ℕ) :
    List epsilon_decay_score :=
  (List.range len).map
    (fun j => epsilon_decay_score.construct alpha tau (model_idx + j))

/-- The outer loop of the `epsilon_decay_data` constructor
(`epsilon_decay.h:47-58`): starting at row index `i` with running counter
`model_idx`, builds the remaining `rem` rows, row `i` holding `i + 1`
scores. -/
def build_scored_configs (alpha tau : ℚ) :
    ℕ → ℕ → ℕ → List (List epsilon_decay_score)
  | _, _, 0 => []
  | i, model_idx, rem + 1 =>
      build_score_row alpha tau model_idx (i + 1)
        :: build_scored_configs alpha tau (i + 1) (model_idx + (i + 1)) rem

/-- The `epsilon_decay_data` record of `epsilon_decay.h:38-65`. -/
structure epsilon_decay_data where
  _scored_configs : List (List epsilon_decay_score)
  _min_scope : ℕ
  _epsilon_decay_alpha : ℚ
  _epsilon_decay_tau : ℚ
  _weights : parameters

/-- The `epsilon_decay_data` constructor (`epsilon_decay.h:40-59`):
stores the hyperparameters and the weights reference, then fills the
triangular collection with `model_idx` running 0, 1, 2, … in row-major
order. -/
def epsilon_decay_data.construct (num_configs min_scope : ℕ)
    (epsilon_decay_alpha epsilon_decay_tau : ℚ) (weights : parameters) :
    epsilon_decay_data :=
  ⟨build_scored_configs epsilon_decay_alpha epsilon_decay_tau 0 0 num_configs,
    min_scope, epsilon_decay_alpha, epsilon_decay_tau, weights⟩

/-- Number of scores in the remaining `rem` rows when the next row has
`i + 1` entries. -/
def triangular_count : ℕ → ℕ → ℕ
  | _, 0 => 0
  | i, rem + 1 => (i + 1) + triangular_count (i + 1) rem

theorem build_score_row_model_idx (alpha tau : ℚ) (m len : ℕ) :
    (build_score_row alpha tau m len).map (fun s => s._model_idx)
      = List.range' m len := by
  rw [build_score_row, List.map_map, List.range'_eq_map_range]
  apply List.map_congr_left
  intro j _
  simp [epsilon_decay_score.construct, Nat.add_comm]

theorem build_score_row_length (alpha tau : ℚ) (m len : ℕ) :
    (build_score_row alpha tau m len).length = len := by
  rw [build_score_row, List.length_map, List.length_range]

theorem build_scored_configs_lengths (alpha tau : ℚ) (i m rem : ℕ) :
    (build_scored_configs alpha tau i m rem).map List.length
      = List.range' (i + 1) rem := by
  induction rem generalizing i m with
  | zero => rfl
  | succ rem ih =>
      rw [build_scored_configs, List.map_cons, build_score_row_length,
        List.range'_succ, ih]

theorem build_scored_configs_model_idx (alpha tau : ℚ) (i m rem : ℕ) :
    (build_scored_configs alpha tau i m rem).flatten.map (fun s => s._model_idx)
      = List.range' m (triangular_count i rem) := by
  induction rem generalizing i m with
  | zero => rfl
  | succ rem ih =>
      rw [build_scored_configs, List.flatten_cons, List.map_append,
        build_score_row_model_idx, ih, triangular_count]
      rw [Nat.add_comm (i + 1) (triangular_count (i + 1) rem)]
      exact List.range'_append_1 m (i + 1) (triangular_count (i + 1) rem)

theorem build_scored_configs_flatten_length (alpha tau : ℚ) (i m rem : ℕ) :
    (build_scored_configs alpha tau i m rem).flatten.length
      = triangular_count i rem := by
  have h := congrArg List.length (build_scored_configs_model_idx alpha tau i m rem)
  rw [List.length_map, List.length_range'] at h
  exact h

theorem triangular_count_closed (i rem : ℕ) :
    2 * triangular_count i rem + i * (i + 1) = (i + rem) * (i + rem + 1) := by
  induction rem generalizing i with
  | zero => rw [triangular_count]; ring_nf
  | succ rem ih =>
      rw [triangular_count]
      have h := ih (i + 1)
      ring_nf at h ⊢
      omega

theorem triangular_count_zero (n : ℕ) :
    triangular_count 0 n = n * (n + 1) / 2 := by
  have h : 2 * triangular_count 0 n = n * (n + 1) := by
    have hc := triangular_count_closed 0 n
    simpa using hc
  omega

theorem build_scored_configs_alpha_tau (alpha tau : ℚ) (i m rem : ℕ) :
    ((build_scored_configs alpha tau i m rem).flatten.all
        (fun s => decide (s.alpha = alpha) && decide (s.tau = tau))) = true := by
  induction rem generalizing i m with
  | zero => rfl
  | succ rem ih =>
      rw [build_scored_configs, List.flatten_cons, List.all_append, ih,
        Bool.and_true]
      rw [build_score_row]
      simp [epsilon_decay_score.construct]

/-- Claim C2: for `num_configs = n ≥ 1`, the constructed triangular
collection has rows of sizes 1, 2, …, n (row `i` holds `i + 1` scored
configurations), and the `model_idx` values over the whole collection,
flattened in row-major order, are exactly `0, 1, …, N - 1` where `N` is
the total number of configurations — hence unique, dense, and assigned in
row-major order at construction. -/
theorem C2_triangular_rows_dense_model_idx (n min_scope : ℕ)
    (alpha tau : ℚ) (w : parameters) (h : 1 ≤ n) :
    (epsilon_decay_data.construct n min_scope alpha tau w)._scored_configs.map
        List.length = (List.range n).map (fun i => i + 1)
    ∧ (epsilon_decay_data.construct n min_scope alpha tau
          w)._scored_configs.flatten.map (fun s => s._model_idx)
      = List.range ((epsilon_decay_data.construct n min_scope alpha tau
          w)._scored_configs.flatten.length) := by
  constructor
  · rw [epsilon_decay_data.construct, build_scored_configs_lengths,
      List.range'_eq_map_range]
    apply List.map_congr_left
    intro j _
    omega
  · rw [epsilon_decay_data.construct, build_scored_configs_model_idx,
      build_scored_configs_flatten_length, List.range_eq_range']

/-- Witness for C2 at `num_configs = 3` (rows of sizes 1, 2, 3 and
`model_idx` values 0..5). -/
theorem C2_witness :
    (epsilon_decay_data.construct 3 0 1 1
        (parameters.sparse (sparse_parameters.construct 16 2)))._scored_configs.map
        List.length = (List.range 3).map (fun i => i + 1)
    ∧ (epsilon_decay_data.construct 3 0 1 1
          (parameters.sparse (sparse_parameters.construct 16 2)))._scored_configs.flatten.map
          (fun s => s._model_idx)
      = List.range ((epsilon_decay_data.construct 3 0 1 1
          (parameters.sparse (sparse_parameters.construct 16 2)))._scored_configs.flatten.length) :=
  C2_triangular_rows_dense_model_idx 3 0 1 1
    (parameters.sparse (sparse_parameters.construct 16 2)) (by decide)

/-- Claim C10: the constructor creates `n * (n + 1) / 2` scored
configurations in total, `num_configs = 0` yields an empty collection,
and every created configuration carries the global `epsilon_decay_alpha`
and `epsilon_decay_tau`. -/
theorem C10_construct_count_and_hyperparameters (n min_scope : ℕ)
    (alpha tau : ℚ) (w : parameters) :
    (epsilon_decay_data.construct n min_scope alpha tau
        w)._scored_configs.flatten.length = n * (n + 1) / 2
    ∧ (epsilon_decay_data.construct 0 min_scope alpha tau w)._scored_configs = []
    ∧ ((epsilon_decay_data.construct n min_scope alpha tau
        w)._scored_configs.flatten.all
          (fun s => decide (s.alpha = alpha) && decide (s.tau = tau))) = true := by
  refine ⟨?_, rfl, ?_⟩
  · rw [epsilon_decay_data.construct, build_scored_configs_flatten_length,
      triangular_count_zero]
  · exact build_scored_configs_alpha_tau alpha tau 0 0 n

/-! ### Persistence (`model_utils` read/write, modelled from the spec) -/

/-- One serialized field of the opaque byte stream: an integer field or a
numeric (floating) field, kept exact so round-tripping is bit-for-bit. -/
inductive model_field where
  | natf (n : ℕ)
  | ratf (q : ℚ)
deriving DecidableEq

/-- Modelled from the spec: `model_utils::write_model_field` for one
scored configuration (declared at `epsilon_decay.h:74`, body not under
`src/`): serializes `alpha`, `tau`, `model_idx`, the accumulated bound
statistics and the update counter, in a stable field order. -/
def write_score_field (s : epsilon_decay_score) : List model_field :=
  [.ratf s.alpha, .ratf s.tau, .natf s._model_idx, .ratf s.ips_numerator,
    .ratf s.ips_denominator, .ratf s._lower_bound, .natf s.update_count]

/-- Modelled from the spec: `model_utils::read_model_field` for one
scored configuration (declared at `epsilon_decay.h:72`): consumes the
fields written by `write_score_field` and returns the configuration and
the remaining stream, or fails on a malformed stream. -/
def read_score_field :
    List model_field → Option (epsilon_decay_score × List model_field)
  | .ratf a :: .ratf t :: .natf mi :: .ratf num :: .ratf den :: .ratf lb
      :: .natf uc :: rest => some (⟨a, t, uc, num, den, lb, mi⟩, rest)
  | _ => none

/-- A row of scored configurations, written length-prefixed. -/
def write_score_row (row : List epsilon_decay_score) : List model_field :=
  .natf row.length :: (row.map write_score_field).flatten

/-- Reads `count` scored configurations in sequence. -/
def read_scores :
    ℕ → List model_field → Option (List epsilon_decay_score × List model_field)
  | 0, rest => some ([], rest)
  | count + 1, buf =>
      match read_score_field buf with
      | some (s, rest) =>
          match read_scores count rest with
          | some (l, rest2) => some (s :: l, rest2)
          | none => none
      | none => none

/-- Reads `count` length-prefixed rows in sequence. -/
def read_score_rows :
    ℕ → List model_field →
      Option (List (List epsilon_decay_score) × List model_field)
  | 0, rest => some ([], rest)
  | count + 1, buf =>
      match buf with
      | .natf len :: buf2 =>
          match read_scores len buf2 with
          | some (row, rest) =>
              match read_score_rows count rest with
              | some (rows, rest2) => some (row :: rows, rest2)
              | none => none
          | none => none
      | _ => none

/-- Modelled from the spec: `model_utils::write_model_field` for the full
`epsilon_decay_data` (declared at `epsilon_decay.h:75`): serializes
`min_scope`, `alpha`, `tau` and the triangular collection row-by-row; it
does NOT serialize the parameter store `_weights`. -/
def write_epsilon_decay_data (d : epsilon_decay_data) : List model_field :=
  .natf d._min_scope :: .ratf d._epsilon_decay_alpha
    :: .ratf d._epsilon_decay_tau :: .natf d._scored_configs.length
    :: (d._scored_configs.map write_score_row).flatten

/-- Modelled from the spec: `model_utils::read_model_field` for the full
`epsilon_decay_data` (declared at `epsilon_decay.h:73`): rebuilds the
serialized fields into the existing object, whose `_weights` reference is
left untouched, and fails atomically on a malformed stream. -/
def read_epsilon_decay_data (buf : List model_field) (d : epsilon_decay_data) :
    Option (epsilon_decay_data × List model_field) :=
  match buf with
  | .natf ms :: .ratf a :: .ratf t :: .natf nrows :: buf2 =>
      match read_score_rows nrows buf2 with
      | some (rows, rest) =>
          some (⟨rows, ms, a, t, d._weights⟩, rest)
      | none => none
  | _ => none

theorem read_score_field_write (s : epsilon_decay_score)
    (rest : List model_field) :
    read_score_field (write_score_field s ++ rest) = some (s, rest) := by
  cases s
  rfl

theorem read_scores_write (row : List epsilon_decay_score)
    (rest : List model_field) :
    read_scores row.length ((row.map write_score_field).flatten ++ rest)
      = some (row, rest) := by
  induction row with
  | nil => rfl
  | cons s row ih =>
      simp only [List.length_cons, List.map_cons, List.flatten_cons,
        List.append_assoc, read_scores, read_score_field_write, ih]

theorem read_score_rows_write (rows : List (List epsilon_decay_score))
    (rest : List model_field) :
    read_score_rows rows.length ((rows.map write_score_row).flatten ++ rest)
      = some (rows, rest) := by
  induction rows with
  | nil => rfl
  | cons row rows ih =>
      simp only [List.length_cons, List.map_cons, List.flatten_cons,
        write_score_row, List.append_assoc, List.cons_append]
      simp only [read_score_rows, read_scores_write, ih]

theorem read_write_round_trip (d d0 : epsilon_decay_data)
    (rest : List model_field) :
    read_epsilon_decay_data (write_epsilon_decay_data d ++ rest) d0
      = some (⟨d._scored_configs, d._min_scope, d._epsilon_decay_alpha,
          d._epsilon_decay_tau, d0._weights⟩, rest) := by
  simp only [write_epsilon_decay_data, List.cons_append]
  simp only [read_epsilon_decay_data, read_score_rows_write]

/-- Claim C4: serializing an `epsilon_decay_data` (in particular one with
`num_configs = 3`, i.e. 6 configurations in rows of sizes 1, 2, 3) and
deserializing it back reproduces identical `model_idx` assignments,
hyperparameters (`min_scope`, `alpha`, `tau`) and exact bound statistics
and update counters for every scored configuration: the round-trip
returns the serialized object unchanged (up to the untouched `_weights`
reference of the destination). -/
theorem C4_serialization_round_trip (d d0 : epsilon_decay_data)
    (rest : List model_field) :
    read_epsilon_decay_data (write_epsilon_decay_data d ++ rest) d0
      = some (⟨d._scored_configs, d._min_scope, d._epsilon_decay_alpha,
          d._epsilon_decay_tau, d0._weights⟩, rest) :=
  read_write_round_trip d d0 rest

/-- Claim C9: the epsilon-decay serialization only covers `min_scope`,
`alpha`, `tau` and the scored configurations: writing is independent of
the referenced parameter store (`_weights`), and a successful read leaves
the destination's `_weights` reference exactly as it was. -/
theorem C9_weights_not_serialized (d : epsilon_decay_data) (w' : parameters)
    (buf rest : List model_field) (d0 r : epsilon_decay_data)
    (h : read_epsilon_decay_data buf d0 = some (r, rest)) :
    write_epsilon_decay_data { d with _weights := w' }
        = write_epsilon_decay_data d
    ∧ r._weights = d0._weights := by
  constructor
  · rfl
  · simp only [read_epsilon_decay_data] at h
    split at h
    · split at h
      · simp only [Option.some.injEq, Prod.mk.injEq] at h
        rw [← h.1]
      · exact absurd h (by simp)
    · exact absurd h (by simp)

/-- Witness for C9: a concrete successful round-trip of the
`num_configs = 2` selector leaves the destination's weights reference in
place, and the written stream ignores a swapped-in store. -/
theorem C9_witness :
    write_epsilon_decay_data
        { (epsilon_decay_data.construct 2 5 1 1
            (parameters.sparse (sparse_parameters.construct 16 2))) with
          _weights := parameters.dense (dense_parameters.construct 16 2) }
        = write_epsilon_decay_data
            (epsilon_decay_data.construct 2 5 1 1
              (parameters.sparse (sparse_parameters.construct 16 2)))
    ∧ (⟨build_scored_configs 1 1 0 0 2, 5, 1, 1,
          parameters.sparse (sparse_parameters.construct 16 2)⟩
        : epsilon_decay_data)._weights
      = (epsilon_decay_data.construct 2 5 1 1
          (parameters.sparse (sparse_parameters.construct 16 2)))._weights :=
  C9_weights_not_serialized
    (epsilon_decay_data.construct 2 5 1 1
      (parameters.sparse (sparse_parameters.construct 16 2)))
    (parameters.dense (dense_parameters.construct 16 2))
    (write_epsilon_decay_data
      (epsilon_decay_data.construct 2 5 1 1
        (parameters.sparse (sparse_parameters.construct 16 2))) ++ [])
    []
    (epsilon_decay_data.construct 2 5 1 1
      (parameters.sparse (sparse_parameters.construct 16 2)))
    ⟨build_scored_configs 1 1 0 0 2, 5, 1, 1,
      parameters.sparse (sparse_parameters.construct 16 2)⟩
    (read_write_round_trip
      (epsilon_decay_data.construct 2 5 1 1
        (parameters.sparse (sparse_parameters.construct 16 2)))
      (epsilon_decay_data.construct 2 5 1 1
        (parameters.sparse (sparse_parameters.construct 16 2)))
      [])

end VW
